import Mathlib

/-!
Verification of the Taekwondo match-scoring service layer.

The development shallowly embeds the service layer (`app/match_service.py`)
and its data model (`app/models.py`) as pure Lean functions over an explicit
service state.  The persistence adapter (SQL session) is modelled as a keyed
store of `Match` records (a function from integer ids to optional records)
together with an append-only list of `MatchEvent` records; `datetime.utcnow`
is modelled as an abstract monotone clock `now : Nat` held in the store.
Python `raise ValueError(msg)` is modelled by returning
`Except.error (ServiceError.valueError msg)` paired with the store as it was
at raise time, so that write effects of failing operations remain observable.
-/

namespace Taekwondo

/-- Team colors, from `models.TeamColor`. -/
inductive TeamColor
  | BLUE
  | RED
deriving DecidableEq, Repr

/-- String value of a team color (`TeamColor` is a `str` enum in the source). -/
def TeamColor.value : TeamColor → String
  | .BLUE => "BLUE"
  | .RED => "RED"

/-- Match phases, from `models.MatchState`. -/
inductive MatchState
  | NOT_STARTED
  | RUNNING
  | PAUSED
  | FINISHED
deriving DecidableEq, Repr

/-- String value of a match state (`MatchState` is a `str` enum in the source). -/
def MatchState.value : MatchState → String
  | .NOT_STARTED => "NOT_STARTED"
  | .RUNNING => "RUNNING"
  | .PAUSED => "PAUSED"
  | .FINISHED => "FINISHED"

/-- The persistent `Match` row from `models.Match`.  The integer primary key is
the key under which the record is stored, so it is not repeated as a field.
Timestamps are abstract clock values. -/
structure Match where
  blue_score : Nat
  red_score : Nat
  blue_gam_jeom : Nat
  red_gam_jeom : Nat
  current_round : Nat
  match_state : MatchState
  created_at : Nat
  updated_at : Nat
deriving DecidableEq, Repr

/-- A fresh `Match()` with the field defaults of `models.Match` and both
timestamp factories evaluated at clock value `now`. -/
def Match.new (now : Nat) : Match :=
  { blue_score := 0
    red_score := 0
    blue_gam_jeom := 0
    red_gam_jeom := 0
    current_round := 1
    match_state := .NOT_STARTED
    created_at := now
    updated_at := now }

/-- The persistent audit row from `models.MatchEvent` (its own surrogate id is
left to the store and not modelled). -/
structure MatchEvent where
  match_id : Nat
  event_type : String
  team_color : Option TeamColor
  points_awarded : Nat
  round_number : Nat
  blue_score_before : Nat
  red_score_before : Nat
  blue_gam_jeom_before : Nat
  red_gam_jeom_before : Nat
  blue_score_after : Nat
  red_score_after : Nat
  blue_gam_jeom_after : Nat
  red_gam_jeom_after : Nat
  notes : Option String
  created_at : Nat
deriving DecidableEq, Repr

/-- Request schema `models.ScoreAction` (`points` carries the pydantic bound
`1 ≤ points ≤ 10`, stated as a hypothesis where a theorem needs it). -/
structure ScoreAction where
  team_color : TeamColor
  points : Nat
  match_id : Nat
deriving DecidableEq, Repr

/-- Request schema `models.GamJeomAction`. -/
structure GamJeomAction where
  penalized_team : TeamColor
  match_id : Nat
  notes : Option String
deriving DecidableEq, Repr

/-- Request schema `models.MatchStateChange`. -/
structure MatchStateChange where
  match_id : Nat
  new_state : MatchState
  notes : Option String
deriving DecidableEq, Repr

/-- Request schema `models.RoundChange` (`new_round` carries the pydantic
bound `1 ≤ new_round`). -/
structure RoundChange where
  match_id : Nat
  new_round : Nat
deriving DecidableEq, Repr

/-- Request schema `models.MatchReset`. -/
structure MatchReset where
  match_id : Nat
  notes : Option String
deriving DecidableEq, Repr

/-- Read-only snapshot schema `models.CurrentMatchState`. -/
structure CurrentMatchState where
  blue_score : Nat
  red_score : Nat
  blue_gam_jeom : Nat
  red_gam_jeom : Nat
  current_round : Nat
  match_state : MatchState
deriving DecidableEq, Repr

/-- `CurrentMatchState()` built from the field defaults of the schema. -/
def CurrentMatchState.init : CurrentMatchState :=
  { blue_score := 0
    red_score := 0
    blue_gam_jeom := 0
    red_gam_jeom := 0
    current_round := 1
    match_state := .NOT_STARTED }

/-- The single error shape the service layer raises: Python
`ValueError(msg)`.  The spec's `NoActiveMatch` is this kind, raised with the
messages "No active match" and "Match not found". -/
inductive ServiceError
  | valueError (msg : String)
deriving DecidableEq, Repr

/-- The persistence adapter: a keyed store of `Match` rows, the append-only
`match_events` table, the next auto-increment id, and the clock standing in
for `datetime.utcnow`. -/
structure DB where
  rows : Nat → Option Match
  events : List MatchEvent
  next_id : Nat
  now : Nat

/-- `session.get(Match, id)`. -/
def DB.getMatch (db : DB) (id : Nat) : Option Match :=
  db.rows id

/-- `session.add(match); session.commit()` for a row keyed by `id`
(full-record upsert). -/
def DB.saveMatch (db : DB) (id : Nat) (m : Match) : DB :=
  { db with rows := fun j => if j = id then some m else db.rows j }

/-- Insert-only append to the `match_events` table. -/
def DB.appendEvent (db : DB) (e : MatchEvent) : DB :=
  { db with events := db.events ++ [e] }

/-- The whole observable state of a `MatchService` instance together with its
persistence adapter: the process-wide `_current_match_id` pointer plus the
store. -/
structure ServiceState where
  current_match_id : Option Nat
  db : DB

/-- A fresh `MatchService()` over an empty store (ids start at 1, as SQL
auto-increment does). -/
def MatchService.init : ServiceState :=
  { current_match_id := none
    db := { rows := fun _ => none, events := [], next_id := 1, now := 0 } }

/-- `MatchService._record_event`: build a `MatchEvent` row and commit it. -/
def record_event (db : DB) (match_id : Nat) (event_type : String)
    (round_number : Nat)
    (blue_score_before red_score_before blue_gam_jeom_before red_gam_jeom_before : Nat)
    (blue_score_after red_score_after blue_gam_jeom_after red_gam_jeom_after : Nat)
    (team_color : Option TeamColor) (points_awarded : Nat)
    (notes : Option String) : DB :=
  db.appendEvent
    { match_id := match_id
      event_type := event_type
      team_color := team_color
      points_awarded := points_awarded
      round_number := round_number
      blue_score_before := blue_score_before
      red_score_before := red_score_before
      blue_gam_jeom_before := blue_gam_jeom_before
      red_gam_jeom_before := red_gam_jeom_before
      blue_score_after := blue_score_after
      red_score_after := red_score_after
      blue_gam_jeom_after := blue_gam_jeom_after
      red_gam_jeom_after := red_gam_jeom_after
      notes := notes
      created_at := db.now }

/-- `MatchService.get_current_match_id`. -/
def get_current_match_id (s : ServiceState) : Option Nat :=
  s.current_match_id

/-- `MatchService.set_current_match_id`. -/
def set_current_match_id (s : ServiceState) (match_id : Nat) : ServiceState :=
  { s with current_match_id := some match_id }

/-- `MatchService.get_current_state`: total, with the all-default soft
fallback when no match is selected or the selected row is absent. -/
def get_current_state (s : ServiceState) : CurrentMatchState :=
  match s.current_match_id with
  | none => CurrentMatchState.init
  | some mid =>
    match s.db.getMatch mid with
    | none => CurrentMatchState.init
    | some m =>
      { blue_score := m.blue_score
        red_score := m.red_score
        blue_gam_jeom := m.blue_gam_jeom
        red_gam_jeom := m.red_gam_jeom
        current_round := m.current_round
        match_state := m.match_state }

/-- `MatchService.create_new_match`: insert a fresh zero row, select it, and
record the MATCH_CREATED event.  The source's `ValueError("Failed to create
match")` branch guards `match.id is None`, which the store never produces (it
always assigns `next_id`), so the operation is total here. -/
def create_new_match (s : ServiceState) : Nat × ServiceState :=
  let t := s.db.now
  let mid := s.db.next_id
  let m := Match.new t
  let db1 := { s.db.saveMatch mid m with next_id := s.db.next_id + 1 }
  let db2 := record_event db1 mid "MATCH_CREATED" 1
    0 0 0 0
    0 0 0 0
    none 0 (some "New match created")
  (mid, { current_match_id := some mid, db := { db2 with now := t + 1 } })

/-- `MatchService.add_score`. -/
def add_score (s : ServiceState) (action : ScoreAction) :
    (Except ServiceError CurrentMatchState) × ServiceState :=
  match s.current_match_id with
  | none => (.error (.valueError "No active match"), s)
  | some mid =>
    match s.db.getMatch mid with
    | none => (.error (.valueError "Match not found"), s)
    | some m =>
      let t := s.db.now
      let m1 :=
        match action.team_color with
        | .BLUE => { m with blue_score := m.blue_score + action.points }
        | .RED => { m with red_score := m.red_score + action.points }
      let m1 := { m1 with updated_at := t }
      let db1 := s.db.saveMatch mid m1
      let db2 := record_event db1 mid "SCORE" m1.current_round
        m.blue_score m.red_score m.blue_gam_jeom m.red_gam_jeom
        m1.blue_score m1.red_score m1.blue_gam_jeom m1.red_gam_jeom
        (some action.team_color) action.points
        (some (action.team_color.value ++ " team scored " ++
          toString action.points ++ " points"))
      let s1 : ServiceState := { s with db := { db2 with now := t + 1 } }
      (.ok (get_current_state s1), s1)

/-- `MatchService.add_gam_jeom`: penalty to the named team, one point to the
opponent, single GAM_JEOM event. -/
def add_gam_jeom (s : ServiceState) (action : GamJeomAction) :
    (Except ServiceError CurrentMatchState) × ServiceState :=
  match s.current_match_id with
  | none => (.error (.valueError "No active match"), s)
  | some mid =>
    match s.db.getMatch mid with
    | none => (.error (.valueError "Match not found"), s)
    | some m =>
      let t := s.db.now
      let m1 :=
        match action.penalized_team with
        | .BLUE => { m with blue_gam_jeom := m.blue_gam_jeom + 1,
                            red_score := m.red_score + 1 }
        | .RED => { m with red_gam_jeom := m.red_gam_jeom + 1,
                           blue_score := m.blue_score + 1 }
      let m1 := { m1 with updated_at := t }
      let db1 := s.db.saveMatch mid m1
      let opposing :=
        match action.penalized_team with
        | .BLUE => TeamColor.RED
        | .RED => TeamColor.BLUE
      let db2 := record_event db1 mid "GAM_JEOM" m1.current_round
        m.blue_score m.red_score m.blue_gam_jeom m.red_gam_jeom
        m1.blue_score m1.red_score m1.blue_gam_jeom m1.red_gam_jeom
        (some action.penalized_team) 1
        (some ("Gam-Jeom penalty for " ++ action.penalized_team.value ++
          ", point awarded to " ++ opposing.value))
      let s1 : ServiceState := { s with db := { db2 with now := t + 1 } }
      (.ok (get_current_state s1), s1)

/-- `MatchService.change_match_state`: unconditional overwrite of the phase;
score and gam-jeom fields of the event are read after the (score-preserving)
mutation, as in the source. -/
def change_match_state (s : ServiceState) (change : MatchStateChange) :
    (Except ServiceError CurrentMatchState) × ServiceState :=
  match s.current_match_id with
  | none => (.error (.valueError "No active match"), s)
  | some mid =>
    match s.db.getMatch mid with
    | none => (.error (.valueError "Match not found"), s)
    | some m =>
      let t := s.db.now
      let m1 := { m with match_state := change.new_state, updated_at := t }
      let db1 := s.db.saveMatch mid m1
      let db2 := record_event db1 mid "STATE_CHANGE" m1.current_round
        m1.blue_score m1.red_score m1.blue_gam_jeom m1.red_gam_jeom
        m1.blue_score m1.red_score m1.blue_gam_jeom m1.red_gam_jeom
        none 0
        (some ("Match state changed from " ++ m.match_state.value ++
          " to " ++ change.new_state.value))
      let s1 : ServiceState := { s with db := { db2 with now := t + 1 } }
      (.ok (get_current_state s1), s1)

/-- `MatchService.next_round`: overwrite `current_round` with the requested
round; the event's `round_number` is the new round. -/
def next_round (s : ServiceState) (change : RoundChange) :
    (Except ServiceError CurrentMatchState) × ServiceState :=
  match s.current_match_id with
  | none => (.error (.valueError "No active match"), s)
  | some mid =>
    match s.db.getMatch mid with
    | none => (.error (.valueError "Match not found"), s)
    | some m =>
      let t := s.db.now
      let m1 := { m with current_round := change.new_round, updated_at := t }
      let db1 := s.db.saveMatch mid m1
      let db2 := record_event db1 mid "ROUND_CHANGE" change.new_round
        m1.blue_score m1.red_score m1.blue_gam_jeom m1.red_gam_jeom
        m1.blue_score m1.red_score m1.blue_gam_jeom m1.red_gam_jeom
        none 0
        (some ("Round changed from " ++ toString m.current_round ++
          " to " ++ toString change.new_round))
      let s1 : ServiceState := { s with db := { db2 with now := t + 1 } }
      (.ok (get_current_state s1), s1)

/-- `MatchService.reset_match`: zero every counter, round back to 1, phase to
NOT_STARTED, one RESET event. -/
def reset_match (s : ServiceState) (reset_action : MatchReset) :
    (Except ServiceError CurrentMatchState) × ServiceState :=
  match s.current_match_id with
  | none => (.error (.valueError "No active match"), s)
  | some mid =>
    match s.db.getMatch mid with
    | none => (.error (.valueError "Match not found"), s)
    | some m =>
      let t := s.db.now
      let m1 : Match :=
        { blue_score := 0
          red_score := 0
          blue_gam_jeom := 0
          red_gam_jeom := 0
          current_round := 1
          match_state := .NOT_STARTED
          created_at := m.created_at
          updated_at := t }
      let db1 := s.db.saveMatch mid m1
      let db2 := record_event db1 mid "RESET" 1
        m.blue_score m.red_score m.blue_gam_jeom m.red_gam_jeom
        0 0 0 0
        none 0
        (some ("Match reset: Scores " ++ toString m.blue_score ++ "-" ++
          toString m.red_score ++ ", Gam-Jeom " ++ toString m.blue_gam_jeom ++
          "-" ++ toString m.red_gam_jeom ++ ", Round " ++
          toString m.current_round ++
          " -> All reset to 0-0, 0-0, Round 1"))
      let s1 : ServiceState := { s with db := { db2 with now := t + 1 } }
      (.ok (get_current_state s1), s1)

/-! Helper vocabulary used by the theorem statements. -/

/-- The opposing team. -/
def TeamColor.opponent : TeamColor → TeamColor
  | .BLUE => .RED
  | .RED => .BLUE

/-- The score counter of a given team. -/
def Match.scoreOf (m : Match) : TeamColor → Nat
  | .BLUE => m.blue_score
  | .RED => m.red_score

/-- The gam-jeom counter of a given team. -/
def Match.gamJeomOf (m : Match) : TeamColor → Nat
  | .BLUE => m.blue_gam_jeom
  | .RED => m.red_gam_jeom

/-- A concrete service state holding one freshly created match (id 1), used
to instantiate the theorems below at concrete inputs. -/
def sampleState : ServiceState :=
  (create_new_match MatchService.init).2

/-- C1: on a selected existing match, `add_gam_jeom` bumps the penalized
team's gam-jeom counter by exactly 1 and the opposing team's score by exactly
1 (never the penalized team's own score), leaves the other two counters
unchanged, and appends exactly one GAM_JEOM event recording the penalized
team with `points_awarded = 1`. -/
theorem add_gam_jeom_correct (s : ServiceState) (a : GamJeomAction)
    (mid : Nat) (m : Match)
    (h : s.current_match_id = some mid) (hm : s.db.getMatch mid = some m) :
    ∃ snap s' m' e,
      add_gam_jeom s a = (Except.ok snap, s') ∧
      s'.db.getMatch mid = some m' ∧
      m'.gamJeomOf a.penalized_team = m.gamJeomOf a.penalized_team + 1 ∧
      m'.scoreOf a.penalized_team.opponent
        = m.scoreOf a.penalized_team.opponent + 1 ∧
      m'.scoreOf a.penalized_team = m.scoreOf a.penalized_team ∧
      m'.gamJeomOf a.penalized_team.opponent
        = m.gamJeomOf a.penalized_team.opponent ∧
      s'.db.events = s.db.events ++ [e] ∧
      e.event_type = "GAM_JEOM" ∧
      e.team_color = some a.penalized_team ∧
      e.points_awarded = 1 := by
  obtain ⟨team, amid, anotes⟩ := a
  cases team with
  | BLUE =>
    simp only [add_gam_jeom, h, hm]
    refine ⟨_, _,
      { m with blue_gam_jeom := m.blue_gam_jeom + 1,
               red_score := m.red_score + 1, updated_at := s.db.now }, _,
      rfl, ?_, rfl, rfl, rfl, rfl, rfl, rfl, rfl, rfl⟩
    simp [DB.getMatch, DB.saveMatch, record_event, DB.appendEvent]
  | RED =>
    simp only [add_gam_jeom, h, hm]
    refine ⟨_, _,
      { m with red_gam_jeom := m.red_gam_jeom + 1,
               blue_score := m.blue_score + 1, updated_at := s.db.now }, _,
      rfl, ?_, rfl, rfl, rfl, rfl, rfl, rfl, rfl, rfl⟩
    simp [DB.getMatch, DB.saveMatch, record_event, DB.appendEvent]

/-- C1 witness: instantiation at a concrete freshly created match. -/
theorem add_gam_jeom_correct_witness :
    (sampleState.current_match_id = some 1 ∧
      sampleState.db.getMatch 1 = some (Match.new 0)) ∧
    ∃ snap s' m' e,
      add_gam_jeom sampleState ⟨TeamColor.BLUE, 1, none⟩ = (Except.ok snap, s') ∧
      s'.db.getMatch 1 = some m' ∧
      m'.gamJeomOf TeamColor.BLUE = (Match.new 0).gamJeomOf TeamColor.BLUE + 1 ∧
      m'.scoreOf TeamColor.BLUE.opponent
        = (Match.new 0).scoreOf TeamColor.BLUE.opponent + 1 ∧
      m'.scoreOf TeamColor.BLUE = (Match.new 0).scoreOf TeamColor.BLUE ∧
      m'.gamJeomOf TeamColor.BLUE.opponent
        = (Match.new 0).gamJeomOf TeamColor.BLUE.opponent ∧
      s'.db.events = sampleState.db.events ++ [e] ∧
      e.event_type = "GAM_JEOM" ∧
      e.team_color = some TeamColor.BLUE ∧
      e.points_awarded = 1 :=
  ⟨⟨rfl, rfl⟩,
    add_gam_jeom_correct sampleState ⟨TeamColor.BLUE, 1, none⟩ 1 (Match.new 0) rfl rfl⟩

/-- C9: on a selected existing match, `add_score` changes only the chosen
team's score (by the requested points) and `updated_at` (to the current
clock): the other team's score, both gam-jeom counters, the round, the phase
and `created_at` are untouched. -/
theorem add_score_frame (s : ServiceState) (a : ScoreAction)
    (mid : Nat) (m : Match)
    (h : s.current_match_id = some mid) (hm : s.db.getMatch mid = some m) :
    ∃ snap s' m',
      add_score s a = (Except.ok snap, s') ∧
      s'.db.getMatch mid = some m' ∧
      m'.scoreOf a.team_color = m.scoreOf a.team_color + a.points ∧
      m'.scoreOf a.team_color.opponent = m.scoreOf a.team_color.opponent ∧
      m'.blue_gam_jeom = m.blue_gam_jeom ∧
      m'.red_gam_jeom = m.red_gam_jeom ∧
      m'.current_round = m.current_round ∧
      m'.match_state = m.match_state ∧
      m'.created_at = m.created_at ∧
      m'.updated_at = s.db.now := by
  obtain ⟨team, points, amid⟩ := a
  cases team with
  | BLUE =>
    simp only [add_score, h, hm]
    refine ⟨_, _,
      { m with blue_score := m.blue_score + points, updated_at := s.db.now },
      rfl, ?_, rfl, rfl, rfl, rfl, rfl, rfl, rfl, rfl⟩
    simp [DB.getMatch, DB.saveMatch, record_event, DB.appendEvent]
  | RED =>
    simp only [add_score, h, hm]
    refine ⟨_, _,
      { m with red_score := m.red_score + points, updated_at := s.db.now },
      rfl, ?_, rfl, rfl, rfl, rfl, rfl, rfl, rfl, rfl⟩
    simp [DB.getMatch, DB.saveMatch, record_event, DB.appendEvent]

/-- C9 witness: instantiation at a concrete freshly created match. -/
theorem add_score_frame_witness :
    (sampleState.current_match_id = some 1 ∧
      sampleState.db.getMatch 1 = some (Match.new 0)) ∧
    ∃ snap s' m',
      add_score sampleState ⟨TeamColor.RED, 3, 1⟩ = (Except.ok snap, s') ∧
      s'.db.getMatch 1 = some m' ∧
      m'.scoreOf TeamColor.RED = (Match.new 0).scoreOf TeamColor.RED + 3 ∧
      m'.scoreOf TeamColor.RED.opponent
        = (Match.new 0).scoreOf TeamColor.RED.opponent ∧
      m'.blue_gam_jeom = (Match.new 0).blue_gam_jeom ∧
      m'.red_gam_jeom = (Match.new 0).red_gam_jeom ∧
      m'.current_round = (Match.new 0).current_round ∧
      m'.match_state = (Match.new 0).match_state ∧
      m'.created_at = (Match.new 0).created_at ∧
      m'.updated_at = sampleState.db.now :=
  ⟨⟨rfl, rfl⟩,
    add_score_frame sampleState ⟨TeamColor.RED, 3, 1⟩ 1 (Match.new 0) rfl rfl⟩

/-- On a selected existing match, `reset_match` returns the all-zero
snapshot, keeps the pointer, and stores the zeroed row (only `created_at`
survives). -/
lemma reset_match_some (s : ServiceState) (r : MatchReset)
    (mid : Nat) (m : Match)
    (h : s.current_match_id = some mid) (hm : s.db.getMatch mid = some m) :
    ∃ snap s',
      reset_match s r = (Except.ok snap, s') ∧
      snap = ⟨0, 0, 0, 0, 1, MatchState.NOT_STARTED⟩ ∧
      s'.current_match_id = s.current_match_id ∧
      s'.db.getMatch mid
        = some ⟨0, 0, 0, 0, 1, MatchState.NOT_STARTED, m.created_at, s.db.now⟩ := by
  simp only [reset_match, h, hm]
  refine ⟨_, _, rfl, ?_, rfl, ?_⟩
  · simp [get_current_state, h, DB.getMatch, DB.saveMatch, record_event,
      DB.appendEvent]
  · simp [DB.getMatch, DB.saveMatch, record_event, DB.appendEvent]

/-- C4: on a selected existing match, `reset_match` zeroes all four counters,
puts the round back to 1 and the phase back to NOT_STARTED, and it is
idempotent: an immediate second `reset_match` yields the very same
all-zero/round-1/NOT_STARTED snapshot. -/
theorem reset_match_zero_idempotent (s : ServiceState) (r r' : MatchReset)
    (mid : Nat) (m : Match)
    (h : s.current_match_id = some mid) (hm : s.db.getMatch mid = some m) :
    ∃ snap s' m' snap2 s'',
      reset_match s r = (Except.ok snap, s') ∧
      snap = ⟨0, 0, 0, 0, 1, MatchState.NOT_STARTED⟩ ∧
      s'.db.getMatch mid = some m' ∧
      m'.blue_score = 0 ∧ m'.red_score = 0 ∧ m'.blue_gam_jeom = 0 ∧
      m'.red_gam_jeom = 0 ∧ m'.current_round = 1 ∧
      m'.match_state = MatchState.NOT_STARTED ∧
      reset_match s' r' = (Except.ok snap2, s'') ∧
      snap2 = snap := by
  obtain ⟨snap, s1, hc, hsnap, hptr, hrow⟩ := reset_match_some s r mid m h hm
  obtain ⟨snap2, s2, hc2, hsnap2, _, _⟩ :=
    reset_match_some s1 r' mid _ (by rw [hptr, h]) hrow
  exact ⟨snap, s1, _, snap2, s2, hc, hsnap, hrow, rfl, rfl, rfl, rfl, rfl, rfl,
    hc2, hsnap2.trans hsnap.symm⟩

/-- C4 witness: instantiation at a concrete freshly created match. -/
theorem reset_match_zero_idempotent_witness :
    (sampleState.current_match_id = some 1 ∧
      sampleState.db.getMatch 1 = some (Match.new 0)) ∧
    ∃ snap s' m' snap2 s'',
      reset_match sampleState ⟨1, none⟩ = (Except.ok snap, s') ∧
      snap = ⟨0, 0, 0, 0, 1, MatchState.NOT_STARTED⟩ ∧
      s'.db.getMatch 1 = some m' ∧
      m'.blue_score = 0 ∧ m'.red_score = 0 ∧ m'.blue_gam_jeom = 0 ∧
      m'.red_gam_jeom = 0 ∧ m'.current_round = 1 ∧
      m'.match_state = MatchState.NOT_STARTED ∧
      reset_match s' ⟨1, none⟩ = (Except.ok snap2, s'') ∧
      snap2 = snap :=
  ⟨⟨rfl, rfl⟩,
    reset_match_zero_idempotent sampleState ⟨1, none⟩ ⟨1, none⟩ 1 (Match.new 0)
      rfl rfl⟩

/-- C5: `get_current_state` is a total function (it cannot raise), and on any
state in which no match id is selected, or the selected id has no stored row,
it returns the default snapshot
`{0, 0, 0, 0, round 1, NOT_STARTED}`. -/
theorem get_current_state_soft_fallback (s : ServiceState)
    (h : s.current_match_id = none ∨
      ∃ mid, s.current_match_id = some mid ∧ s.db.getMatch mid = none) :
    get_current_state s = CurrentMatchState.init := by
  rcases h with h | ⟨mid, h, hm⟩
  · simp [get_current_state, h]
  · simp [get_current_state, h, hm]

/-- C5 witness: a fresh service with no match ever selected. -/
theorem get_current_state_soft_fallback_witness :
    (MatchService.init.current_match_id = none ∨
      ∃ mid, MatchService.init.current_match_id = some mid ∧
        MatchService.init.db.getMatch mid = none) ∧
    get_current_state MatchService.init = CurrentMatchState.init :=
  ⟨Or.inl rfl, get_current_state_soft_fallback MatchService.init (Or.inl rfl)⟩

/-- The selection is invalid: no current match id, or the id names no stored
row.  This is exactly the condition under which the spec's `NoActiveMatch`
is raised. -/
def noValidMatch (s : ServiceState) : Prop :=
  s.current_match_id = none ∨
    ∃ mid, s.current_match_id = some mid ∧ s.db.getMatch mid = none

/-- C6: each of the five selected-match mutators errors exactly when the
current match id is unset or refers to no stored row, and every error the
core can produce is of the single `ValueError` kind (the spec's
`NoActiveMatch`); `create_new_match` and the read accessors are total and
raise nothing. -/
theorem mutators_error_iff_no_valid_match (s : ServiceState) (a : ScoreAction)
    (g : GamJeomAction) (c : MatchStateChange) (rc : RoundChange)
    (r : MatchReset) :
    ((∃ e, (add_score s a).1 = Except.error e) ↔ noValidMatch s) ∧
    ((∃ e, (add_gam_jeom s g).1 = Except.error e) ↔ noValidMatch s) ∧
    ((∃ e, (change_match_state s c).1 = Except.error e) ↔ noValidMatch s) ∧
    ((∃ e, (next_round s rc).1 = Except.error e) ↔ noValidMatch s) ∧
    ((∃ e, (reset_match s r).1 = Except.error e) ↔ noValidMatch s) ∧
    (∀ e : ServiceError, ∃ msg, e = ServiceError.valueError msg) := by
  refine ⟨?_, ?_, ?_, ?_, ?_, fun e => by cases e with | valueError msg => exact ⟨msg, rfl⟩⟩ <;>
  · rcases hcur : s.current_match_id with _ | mid
    · simp [add_score, add_gam_jeom, change_match_state, next_round,
        reset_match, noValidMatch, hcur]
    · rcases hrow : s.db.getMatch mid with _ | m <;>
        simp [add_score, add_gam_jeom, change_match_state, next_round,
          reset_match, noValidMatch, hcur, hrow]

/-- C7: every selected-match mutator called while no match id is selected
fails with the `NoActiveMatch` `ValueError` and returns the service state
completely unchanged: no `Match` row is written and no `MatchEvent` is
appended. -/
theorem mutators_no_selection_no_write (s : ServiceState) (a : ScoreAction)
    (g : GamJeomAction) (c : MatchStateChange) (rc : RoundChange)
    (r : MatchReset) (h : s.current_match_id = none) :
    add_score s a = (Except.error (ServiceError.valueError "No active match"), s) ∧
    add_gam_jeom s g = (Except.error (ServiceError.valueError "No active match"), s) ∧
    change_match_state s c = (Except.error (ServiceError.valueError "No active match"), s) ∧
    next_round s rc = (Except.error (ServiceError.valueError "No active match"), s) ∧
    reset_match s r = (Except.error (ServiceError.valueError "No active match"), s) := by
  simp [add_score, add_gam_jeom, change_match_state, next_round, reset_match, h]

/-- C7 witness: a fresh service with nothing selected. -/
theorem mutators_no_selection_no_write_witness :
    MatchService.init.current_match_id = none ∧
    (add_score MatchService.init ⟨TeamColor.BLUE, 1, 1⟩
        = (Except.error (ServiceError.valueError "No active match"), MatchService.init) ∧
      add_gam_jeom MatchService.init ⟨TeamColor.RED, 1, none⟩
        = (Except.error (ServiceError.valueError "No active match"), MatchService.init) ∧
      change_match_state MatchService.init ⟨1, MatchState.RUNNING, none⟩
        = (Except.error (ServiceError.valueError "No active match"), MatchService.init) ∧
      next_round MatchService.init ⟨1, 2⟩
        = (Except.error (ServiceError.valueError "No active match"), MatchService.init) ∧
      reset_match MatchService.init ⟨1, none⟩
        = (Except.error (ServiceError.valueError "No active match"), MatchService.init)) :=
  ⟨rfl,
    mutators_no_selection_no_write MatchService.init ⟨TeamColor.BLUE, 1, 1⟩
      ⟨TeamColor.RED, 1, none⟩ ⟨1, MatchState.RUNNING, none⟩ ⟨1, 2⟩ ⟨1, none⟩ rfl⟩

/-- C10: reading the pointer right after `set_current_match_id id` yields
`some id`, and none of the five selected-match mutators ever moves the
pointer (in the embedding the remaining operations, `get_current_state` and
`get_current_match_id`, return no state at all, so only
`set_current_match_id` and `create_new_match` can change it). -/
theorem current_match_pointer (s : ServiceState) (id : Nat) (a : ScoreAction)
    (g : GamJeomAction) (c : MatchStateChange) (rc : RoundChange)
    (r : MatchReset) :
    get_current_match_id (set_current_match_id s id) = some id ∧
    (add_score s a).2.current_match_id = s.current_match_id ∧
    (add_gam_jeom s g).2.current_match_id = s.current_match_id ∧
    (change_match_state s c).2.current_match_id = s.current_match_id ∧
    (next_round s rc).2.current_match_id = s.current_match_id ∧
    (reset_match s r).2.current_match_id = s.current_match_id := by
  refine ⟨rfl, ?_, ?_, ?_, ?_, ?_⟩ <;>
  · rcases hcur : s.current_match_id with _ | mid
    · simp [add_score, add_gam_jeom, change_match_state, next_round,
        reset_match, hcur]
    · rcases hrow : s.db.getMatch mid with _ | m <;>
        simp [add_score, add_gam_jeom, change_match_state, next_round,
          reset_match, hcur, hrow]

/-- The six mutating operations of the core, as one dispatchable intent
type. -/
inductive Op
  | create
  | score (a : ScoreAction)
  | gamJeom (a : GamJeomAction)
  | stateChange (c : MatchStateChange)
  | roundChange (c : RoundChange)
  | reset (r : MatchReset)

/-- Dispatch an intent to the corresponding service operation, keeping the
resulting state on success and the raised error on failure. -/
def applyOp (s : ServiceState) : Op → Except ServiceError ServiceState
  | .create => Except.ok (create_new_match s).2
  | .score a =>
    match add_score s a with
    | (Except.ok _, s1) => Except.ok s1
    | (Except.error e, _) => Except.error e
  | .gamJeom a =>
    match add_gam_jeom s a with
    | (Except.ok _, s1) => Except.ok s1
    | (Except.error e, _) => Except.error e
  | .stateChange c =>
    match change_match_state s c with
    | (Except.ok _, s1) => Except.ok s1
    | (Except.error e, _) => Except.error e
  | .roundChange c =>
    match next_round s c with
    | (Except.ok _, s1) => Except.ok s1
    | (Except.error e, _) => Except.error e
  | .reset r =>
    match reset_match s r with
    | (Except.ok _, s1) => Except.ok s1
    | (Except.error e, _) => Except.error e

/-- The id of the `Match` row an operation mutates: the freshly assigned id
for `create`, the selected id `mid` otherwise. -/
def opTarget (s : ServiceState) (mid : Nat) : Op → Nat
  | .create => s.db.next_id
  | _ => mid

/-- The `Match` row the operation starts from: for `create` the
zero-initialized row it is about to insert, otherwise the selected row
`m`. -/
def opBefore (s : ServiceState) (m : Match) : Op → Match
  | .create => Match.new s.db.now
  | _ => m

/-- Every mutating operation on a selected existing match succeeds, appends
exactly one event, and that event's snapshot fields and round number agree
with the mutated row before and after the mutation. -/
lemma applyOp_event_spec (s : ServiceState) (op : Op) (mid : Nat) (m : Match)
    (h : s.current_match_id = some mid) (hm : s.db.getMatch mid = some m) :
    ∃ s' e m', applyOp s op = Except.ok s' ∧
      s'.db.events = s.db.events ++ [e] ∧
      s'.db.getMatch (opTarget s mid op) = some m' ∧
      e.blue_score_before = (opBefore s m op).blue_score ∧
      e.red_score_before = (opBefore s m op).red_score ∧
      e.blue_gam_jeom_before = (opBefore s m op).blue_gam_jeom ∧
      e.red_gam_jeom_before = (opBefore s m op).red_gam_jeom ∧
      e.blue_score_after = m'.blue_score ∧
      e.red_score_after = m'.red_score ∧
      e.blue_gam_jeom_after = m'.blue_gam_jeom ∧
      e.red_gam_jeom_after = m'.red_gam_jeom ∧
      e.round_number = m'.current_round := by
  cases op with
  | create =>
    simp only [applyOp, create_new_match, opTarget, opBefore]
    refine ⟨_, _, Match.new s.db.now,
      rfl, rfl, ?_, rfl, rfl, rfl, rfl, rfl, rfl, rfl, rfl, rfl⟩
    simp [DB.getMatch, DB.saveMatch, record_event, DB.appendEvent]
  | score a =>
    obtain ⟨team, points, amid⟩ := a
    cases team with
    | BLUE =>
      simp only [applyOp, add_score, h, hm, opTarget, opBefore]
      refine ⟨_, _,
        { m with blue_score := m.blue_score + points, updated_at := s.db.now },
        rfl, rfl, ?_, rfl, rfl, rfl, rfl, rfl, rfl, rfl, rfl, rfl⟩
      simp [DB.getMatch, DB.saveMatch, record_event, DB.appendEvent]
    | RED =>
      simp only [applyOp, add_score, h, hm, opTarget, opBefore]
      refine ⟨_, _,
        { m with red_score := m.red_score + points, updated_at := s.db.now },
        rfl, rfl, ?_, rfl, rfl, rfl, rfl, rfl, rfl, rfl, rfl, rfl⟩
      simp [DB.getMatch, DB.saveMatch, record_event, DB.appendEvent]
  | gamJeom a =>
    obtain ⟨team, amid, anotes⟩ := a
    cases team with
    | BLUE =>
      simp only [applyOp, add_gam_jeom, h, hm, opTarget, opBefore]
      refine ⟨_, _,
        { m with blue_gam_jeom := m.blue_gam_jeom + 1,
                 red_score := m.red_score + 1, updated_at := s.db.now },
        rfl, rfl, ?_, rfl, rfl, rfl, rfl, rfl, rfl, rfl, rfl, rfl⟩
      simp [DB.getMatch, DB.saveMatch, record_event, DB.appendEvent]
    | RED =>
      simp only [applyOp, add_gam_jeom, h, hm, opTarget, opBefore]
      refine ⟨_, _,
        { m with red_gam_jeom := m.red_gam_jeom + 1,
                 blue_score := m.blue_score + 1, updated_at := s.db.now },
        rfl, rfl, ?_, rfl, rfl, rfl, rfl, rfl, rfl, rfl, rfl, rfl⟩
      simp [DB.getMatch, DB.saveMatch, record_event, DB.appendEvent]
  | stateChange c =>
    simp only [applyOp, change_match_state, h, hm, opTarget, opBefore]
    refine ⟨_, _,
      { m with match_state := c.new_state, updated_at := s.db.now },
      rfl, rfl, ?_, rfl, rfl, rfl, rfl, rfl, rfl, rfl, rfl, rfl⟩
    simp [DB.getMatch, DB.saveMatch, record_event, DB.appendEvent]
  | roundChange c =>
    simp only [applyOp, next_round, h, hm, opTarget, opBefore]
    refine ⟨_, _,
      { m with current_round := c.new_round, updated_at := s.db.now },
      rfl, rfl, ?_, rfl, rfl, rfl, rfl, rfl, rfl, rfl, rfl, rfl⟩
    simp [DB.getMatch, DB.saveMatch, record_event, DB.appendEvent]
  | reset r =>
    simp only [applyOp, reset_match, h, hm, opTarget, opBefore]
    refine ⟨_, _,
      ⟨0, 0, 0, 0, 1, MatchState.NOT_STARTED, m.created_at, s.db.now⟩,
      rfl, rfl, ?_, rfl, rfl, rfl, rfl, rfl, rfl, rfl, rfl, rfl⟩
    simp [DB.getMatch, DB.saveMatch, record_event, DB.appendEvent]

/-- C2: every mutating operation on a selected existing match appends exactly
one new `MatchEvent`, whose four "before" snapshot fields equal the mutated
row's counters immediately before the mutation (for `create`, the
zero-initialized row being inserted) and whose four "after" fields equal the
stored row's counters immediately after. -/
theorem mutation_event_snapshot_exact (s : ServiceState) (op : Op)
    (mid : Nat) (m : Match)
    (h : s.current_match_id = some mid) (hm : s.db.getMatch mid = some m) :
    ∃ s' e m', applyOp s op = Except.ok s' ∧
      s'.db.events = s.db.events ++ [e] ∧
      s'.db.getMatch (opTarget s mid op) = some m' ∧
      e.blue_score_before = (opBefore s m op).blue_score ∧
      e.red_score_before = (opBefore s m op).red_score ∧
      e.blue_gam_jeom_before = (opBefore s m op).blue_gam_jeom ∧
      e.red_gam_jeom_before = (opBefore s m op).red_gam_jeom ∧
      e.blue_score_after = m'.blue_score ∧
      e.red_score_after = m'.red_score ∧
      e.blue_gam_jeom_after = m'.blue_gam_jeom ∧
      e.red_gam_jeom_after = m'.red_gam_jeom := by
  obtain ⟨s', e, m', h1, h2, h3, h4, h5, h6, h7, h8, h9, h10, h11, _⟩ :=
    applyOp_event_spec s op mid m h hm
  exact ⟨s', e, m', h1, h2, h3, h4, h5, h6, h7, h8, h9, h10, h11⟩

/-- C2 witness: a GAM_JEOM mutation on a concrete freshly created match. -/
theorem mutation_event_snapshot_exact_witness :
    (sampleState.current_match_id = some 1 ∧
      sampleState.db.getMatch 1 = some (Match.new 0)) ∧
    ∃ s' e m',
      applyOp sampleState (Op.gamJeom ⟨TeamColor.RED, 1, none⟩) = Except.ok s' ∧
      s'.db.events = sampleState.db.events ++ [e] ∧
      s'.db.getMatch (opTarget sampleState 1 (Op.gamJeom ⟨TeamColor.RED, 1, none⟩))
        = some m' ∧
      e.blue_score_before
        = (opBefore sampleState (Match.new 0) (Op.gamJeom ⟨TeamColor.RED, 1, none⟩)).blue_score ∧
      e.red_score_before
        = (opBefore sampleState (Match.new 0) (Op.gamJeom ⟨TeamColor.RED, 1, none⟩)).red_score ∧
      e.blue_gam_jeom_before
        = (opBefore sampleState (Match.new 0) (Op.gamJeom ⟨TeamColor.RED, 1, none⟩)).blue_gam_jeom ∧
      e.red_gam_jeom_before
        = (opBefore sampleState (Match.new 0) (Op.gamJeom ⟨TeamColor.RED, 1, none⟩)).red_gam_jeom ∧
      e.blue_score_after = m'.blue_score ∧
      e.red_score_after = m'.red_score ∧
      e.blue_gam_jeom_after = m'.blue_gam_jeom ∧
      e.red_gam_jeom_after = m'.red_gam_jeom :=
  ⟨⟨rfl, rfl⟩,
    mutation_event_snapshot_exact sampleState (Op.gamJeom ⟨TeamColor.RED, 1, none⟩)
      1 (Match.new 0) rfl rfl⟩

/-- C8: the `round_number` recorded in the single event emitted by any
mutating operation on a selected existing match equals the mutated row's
`current_round` as stored when the event is written (the round in effect at
the time of the event). -/
theorem event_round_number_current (s : ServiceState) (op : Op)
    (mid : Nat) (m : Match)
    (h : s.current_match_id = some mid) (hm : s.db.getMatch mid = some m) :
    ∃ s' e m', applyOp s op = Except.ok s' ∧
      s'.db.events = s.db.events ++ [e] ∧
      s'.db.getMatch (opTarget s mid op) = some m' ∧
      e.round_number = m'.current_round := by
  obtain ⟨s', e, m', h1, h2, h3, _, _, _, _, _, _, _, _, h12⟩ :=
    applyOp_event_spec s op mid m h hm
  exact ⟨s', e, m', h1, h2, h3, h12⟩

/-- C8 witness: a round change on a concrete freshly created match. -/
theorem event_round_number_current_witness :
    (sampleState.current_match_id = some 1 ∧
      sampleState.db.getMatch 1 = some (Match.new 0)) ∧
    ∃ s' e m',
      applyOp sampleState (Op.roundChange ⟨1, 3⟩) = Except.ok s' ∧
      s'.db.events = sampleState.db.events ++ [e] ∧
      s'.db.getMatch (opTarget sampleState 1 (Op.roundChange ⟨1, 3⟩)) = some m' ∧
      e.round_number = m'.current_round :=
  ⟨⟨rfl, rfl⟩,
    event_round_number_current sampleState (Op.roundChange ⟨1, 3⟩) 1
      (Match.new 0) rfl rfl⟩

/-- A scoring-path intent: one `add_score` or one `add_gam_jeom` call. -/
inductive SAction
  | score (a : ScoreAction)
  | gamJeom (a : GamJeomAction)

/-- Dispatch one scoring-path intent. -/
def applyS (s : ServiceState) : SAction →
    (Except ServiceError CurrentMatchState) × ServiceState
  | .score a => add_score s a
  | .gamJeom a => add_gam_jeom s a

/-- Run a sequence of scoring-path calls, stopping at the first raise. -/
def runSeq (s : ServiceState) : List SAction → Except ServiceError ServiceState
  | [] => Except.ok s
  | a :: rest =>
    match applyS s a with
    | (Except.ok _, s1) => runSeq s1 rest
    | (Except.error e, _) => Except.error e

/-- How much one call contributes to the blue score: the `points` of a BLUE
`add_score`, or 1 for an `add_gam_jeom` penalizing RED. -/
def SAction.blueDelta : SAction → Nat
  | .score a => match a.team_color with | .BLUE => a.points | .RED => 0
  | .gamJeom a => match a.penalized_team with | .RED => 1 | .BLUE => 0

/-- How much one call contributes to the red score: the `points` of a RED
`add_score`, or 1 for an `add_gam_jeom` penalizing BLUE. -/
def SAction.redDelta : SAction → Nat
  | .score a => match a.team_color with | .RED => a.points | .BLUE => 0
  | .gamJeom a => match a.penalized_team with | .BLUE => 1 | .RED => 0

/-- Sum of blue-score contributions over a call sequence. -/
def seqBlueDelta : List SAction → Nat
  | [] => 0
  | a :: rest => a.blueDelta + seqBlueDelta rest

/-- Sum of red-score contributions over a call sequence. -/
def seqRedDelta : List SAction → Nat
  | [] => 0
  | a :: rest => a.redDelta + seqRedDelta rest

/-- One scoring-path call on a selected existing match succeeds, keeps the
pointer, keeps the row present, and moves each score by the call's
contribution. -/
lemma applyS_step (s : ServiceState) (a : SAction) (mid : Nat) (m : Match)
    (h : s.current_match_id = some mid) (hm : s.db.getMatch mid = some m) :
    ∃ snap s' m', applyS s a = (Except.ok snap, s') ∧
      s'.current_match_id = s.current_match_id ∧
      s'.db.getMatch mid = some m' ∧
      m'.blue_score = m.blue_score + a.blueDelta ∧
      m'.red_score = m.red_score + a.redDelta := by
  cases a with
  | score a =>
    obtain ⟨team, points, amid⟩ := a
    cases team with
    | BLUE =>
      simp only [applyS, add_score, h, hm, SAction.blueDelta, SAction.redDelta]
      refine ⟨_, _,
        { m with blue_score := m.blue_score + points, updated_at := s.db.now },
        rfl, rfl, ?_, rfl, rfl⟩
      simp [DB.getMatch, DB.saveMatch, record_event, DB.appendEvent]
    | RED =>
      simp only [applyS, add_score, h, hm, SAction.blueDelta, SAction.redDelta]
      refine ⟨_, _,
        { m with red_score := m.red_score + points, updated_at := s.db.now },
        rfl, rfl, ?_, ?_, rfl⟩
      · simp [DB.getMatch, DB.saveMatch, record_event, DB.appendEvent]
      · simp
  | gamJeom a =>
    obtain ⟨team, amid, anotes⟩ := a
    cases team with
    | BLUE =>
      simp only [applyS, add_gam_jeom, h, hm, SAction.blueDelta, SAction.redDelta]
      refine ⟨_, _,
        { m with blue_gam_jeom := m.blue_gam_jeom + 1,
                 red_score := m.red_score + 1, updated_at := s.db.now },
        rfl, rfl, ?_, ?_, rfl⟩
      · simp [DB.getMatch, DB.saveMatch, record_event, DB.appendEvent]
      · simp
    | RED =>
      simp only [applyS, add_gam_jeom, h, hm, SAction.blueDelta, SAction.redDelta]
      refine ⟨_, _,
        { m with red_gam_jeom := m.red_gam_jeom + 1,
                 blue_score := m.blue_score + 1, updated_at := s.db.now },
        rfl, rfl, ?_, rfl, ?_⟩
      · simp [DB.getMatch, DB.saveMatch, record_event, DB.appendEvent]
      · simp

/-- Running a scoring-path sequence from any selected existing match adds the
summed contributions to each score. -/
lemma runSeq_scores (l : List SAction) :
    ∀ (s : ServiceState) (mid : Nat) (m : Match),
      s.current_match_id = some mid → s.db.getMatch mid = some m →
      ∃ s' m', runSeq s l = Except.ok s' ∧
        s'.current_match_id = some mid ∧
        s'.db.getMatch mid = some m' ∧
        m'.blue_score = m.blue_score + seqBlueDelta l ∧
        m'.red_score = m.red_score + seqRedDelta l := by
  induction l with
  | nil =>
    intro s mid m h hm
    exact ⟨s, m, rfl, h, hm, by simp [seqBlueDelta], by simp [seqRedDelta]⟩
  | cons a rest ih =>
    intro s mid m h hm
    obtain ⟨snap, s1, m1, happ, hptr, hrow, hb, hr⟩ := applyS_step s a mid m h hm
    obtain ⟨s', m', hrun, hptr', hrow', hb', hr'⟩ :=
      ih s1 mid m1 (hptr.trans h) hrow
    refine ⟨s', m', ?_, hptr', hrow', ?_, ?_⟩
    · simp only [runSeq, happ, hrun]
    · simp only [seqBlueDelta]
      omega
    · simp only [seqRedDelta]
      omega

/-- C3: after `create_new_match`, running any finite sequence of `add_score`
and `add_gam_jeom` calls leaves the new match's `blue_score` equal to the sum
of the `points` arguments of the BLUE-addressed `add_score` calls plus the
number of `add_gam_jeom` calls penalizing RED, and symmetrically for
`red_score`. -/
theorem scores_sum_of_calls (l : List SAction) (s : ServiceState) :
    ∃ s' m',
      runSeq (create_new_match s).2 l = Except.ok s' ∧
      s'.db.getMatch (create_new_match s).1 = some m' ∧
      m'.blue_score = seqBlueDelta l ∧
      m'.red_score = seqRedDelta l := by
  have h : (create_new_match s).2.current_match_id
      = some (create_new_match s).1 := rfl
  have hm : (create_new_match s).2.db.getMatch (create_new_match s).1
      = some (Match.new s.db.now) := by
    simp [create_new_match, DB.getMatch, DB.saveMatch, record_event,
      DB.appendEvent]
  obtain ⟨s', m', h1, _, h3, h4, h5⟩ := runSeq_scores l _ _ _ h hm
  refine ⟨s', m', h1, h3, ?_, ?_⟩
  · simpa [Match.new] using h4
  · simpa [Match.new] using h5

end Taekwondo
